import Mathlib

/-!
Shallow embedding of `base_viewset_mixin.py` (class `BaseViewSet` and the
module-level helper `_error_response`): the exception-classification chain
`handle_exception`, the response helpers `_error_response` and
`success_response`, the safe lookup wrapper `get_object`, the `retrieve`
action, the list-filtering step `filter_queryset`, and the
before/perform/after hook pipelines `perform_create`, `perform_update`,
`perform_destroy`.

Python exceptions are modelled as a closed inductive `Exc` whose
constructors are the concrete exception classes appearing in the
`isinstance` chain (plus unrelated classes such as `ImproperlyConfigured`,
`ValueError` and an `other` constructor for arbitrary unrecognized faults).
Each `isinstance` test becomes a boolean predicate that is true exactly on
the constructors that are instances of that Python class, honouring the
real subclass relations (`DisallowedHost ⊂ SuspiciousOperation`,
`ProtectedError`/`RestrictedError ⊂ IntegrityError ⊂ DatabaseError`, all
DRF exceptions ⊂ `APIException`, and so on).
-/

/-- JSON-like values used for response payloads and exception details. -/
inductive Val
  | null
  | str (s : String)
  | nat (n : Nat)
  | arr (xs : List Val)
  | obj (fields : List (String × Val))

/-- An array of strings, as produced for message lists. -/
def strListVal (xs : List String) : Val :=
  Val.arr (xs.map Val.str)

/-- A mapping field-name to message-list, as in Django `message_dict`. -/
def sdictVal (d : List (String × List String)) : Val :=
  Val.obj (d.map (fun p => (p.1, strListVal p.2)))

/-- A DRF `Response(data, status=status_code)`. -/
structure Response where
  data : Val
  status_code : Nat

/-- Key lookup in an ordered string-keyed association list (Python dict). -/
def lookupKey (k : String) : List (String × Val) → Option Val
  | [] => none
  | p :: rest => if p.1 = k then some p.2 else lookupKey k rest

/-- Python `dict.update`: keys already in `base` keep their position but take
the value from `extra`; keys only in `extra` are appended in order. -/
def dictUpdate (base extra : List (String × Val)) : List (String × Val) :=
  (base.map fun p =>
    match lookupKey p.1 extra with
    | some v => (p.1, v)
    | none => p)
  ++ extra.filter fun q => (lookupKey q.1 base).isNone

/-- The module-level helper `_error_response(message, code, status_code,
errors, extra)`: builds the unified error payload with inner keys `code`,
`message`, `details`, and merges `extra` into the inner object only when
`extra` is truthy (non-None and non-empty), exactly as `if extra:
payload["error"].update(extra)` does. -/
def _error_response (message code : String) (status_code : Nat)
    (errors : Option Val) (extra : Option (List (String × Val))) : Response :=
  let inner : List (String × Val) :=
    [("code", Val.str code),
     ("message", Val.str message),
     ("details", match errors with | some v => v | none => Val.null)]
  let inner :=
    match extra with
    | some l => if l.isEmpty then inner else dictUpdate inner l
    | none => inner
  { data := Val.obj [("error", Val.obj inner)], status_code := status_code }

/-- Exceptions that can reach `handle_exception`, one constructor per
concrete Python exception class, carrying the attributes that the handler
reads. `other` stands for any exception that is an instance of none of the
classes tested in the chain. -/
inductive Exc
  | drfValidationError (detail : Val)
  | parseError (detail : Val)
  | notAuthenticated (detail : String)
  | authenticationFailed (detail : String)
  | drfPermissionDenied (detail : String)
  | notFound (detail : String)
  | methodNotAllowed (detail : String)
  | notAcceptable (detail : String)
  | unsupportedMediaType (detail : String)
  | throttled (wait : Option Nat)
  | apiException (detail : String) (default_code : String) (status_code : Nat)
  | http404 (msg : String)
  | objectDoesNotExist (msg : String)
  | multipleObjectsReturned (msg : String)
  | djangoPermissionDenied (msg : String)
  | djangoValidationError (message_dict : Option (List (String × List String)))
      (messages : List String)
  | suspiciousOperation (msg : String)
  | disallowedHost (msg : String)
  | fieldDoesNotExist (msg : String)
  | protectedError (msg : String) (protected_objects : List String)
  | restrictedError (msg : String) (restricted_objects : List String)
  | integrityError (msg : String)
  | dataError (msg : String)
  | operationalError (msg : String)
  | programmingError (msg : String)
  | databaseError (msg : String)
  | improperlyConfigured (msg : String)
  | valueError (msg : String)
  | other (name msg : String)

/-- Per-class mutable configuration flags of `BaseViewSet`. -/
structure Config where
  LOG_REQUESTS : Bool
  SAFE_DB_ERRORS : Bool

namespace Exc

/-- Structured `exc.detail` of DRF `ValidationError` / `ParseError`. -/
def detailOf : Exc → Val
  | drfValidationError d => d
  | parseError d => d
  | _ => Val.null

/-- The string `str(exc.detail)` of a DRF exception. -/
def detailStr : Exc → String
  | notAuthenticated d => d
  | authenticationFailed d => d
  | drfPermissionDenied d => d
  | notFound d => d
  | methodNotAllowed d => d
  | notAcceptable d => d
  | unsupportedMediaType d => d
  | apiException d _ _ => d
  | _ => ""

/-- The attribute `exc.status_code` of a DRF exception (class attribute 401
for `NotAuthenticated` and `AuthenticationFailed`). -/
def statusCodeOf : Exc → Nat
  | notAuthenticated _ => 401
  | authenticationFailed _ => 401
  | apiException _ _ s => s
  | _ => 500

/-- The attribute read by `getattr(exc, "default_code", "api_error")`. -/
def defaultCodeOf : Exc → String
  | apiException _ c _ => c
  | _ => "api_error"

/-- The attribute `exc.wait` of a `Throttled` exception. -/
def waitOf : Exc → Option Nat
  | throttled w => w
  | _ => none

/-- The string `str(exc)` of a Django or database exception. -/
def excStr : Exc → String
  | http404 m => m
  | objectDoesNotExist m => m
  | multipleObjectsReturned m => m
  | djangoPermissionDenied m => m
  | suspiciousOperation m => m
  | disallowedHost m => m
  | fieldDoesNotExist m => m
  | protectedError m _ => m
  | restrictedError m _ => m
  | integrityError m => m
  | dataError m => m
  | operationalError m => m
  | programmingError m => m
  | databaseError m => m
  | improperlyConfigured m => m
  | valueError m => m
  | other _ m => m
  | _ => ""

/-- The attribute `exc.protected_objects`, `none` when `hasattr` is false
(in particular `RestrictedError` has `restricted_objects` instead). -/
def protectedObjectsOf : Exc → Option (List String)
  | protectedError _ objs => some objs
  | _ => none

/-- The attribute `exc.message_dict`, `none` when `hasattr` is false. -/
def messageDictOf : Exc → Option (List (String × List String))
  | djangoValidationError md _ => md
  | _ => none

/-- The attribute `exc.messages` of a Django `ValidationError`. -/
def messagesOf : Exc → List String
  | djangoValidationError _ msgs => msgs
  | _ => []

/-- Test `isinstance(exc, DRFValidationError)`. -/
def isDRFValidationError : Exc → Bool
  | drfValidationError _ => true
  | _ => false

/-- Test `isinstance(exc, ParseError)`. -/
def isParseError : Exc → Bool
  | parseError _ => true
  | _ => false

/-- Test `isinstance(exc, NotAuthenticated)`. -/
def isNotAuthenticated : Exc → Bool
  | notAuthenticated _ => true
  | _ => false

/-- Test `isinstance(exc, AuthenticationFailed)`. -/
def isAuthenticationFailed : Exc → Bool
  | authenticationFailed _ => true
  | _ => false

/-- Test `isinstance(exc, DRFPermissionDenied)`. -/
def isDRFPermissionDenied : Exc → Bool
  | drfPermissionDenied _ => true
  | _ => false

/-- Test `isinstance(exc, NotFound)`. -/
def isNotFound : Exc → Bool
  | notFound _ => true
  | _ => false

/-- Test `isinstance(exc, MethodNotAllowed)`. -/
def isMethodNotAllowed : Exc → Bool
  | methodNotAllowed _ => true
  | _ => false

/-- Test `isinstance(exc, NotAcceptable)`. -/
def isNotAcceptable : Exc → Bool
  | notAcceptable _ => true
  | _ => false

/-- Test `isinstance(exc, UnsupportedMediaType)`. -/
def isUnsupportedMediaType : Exc → Bool
  | unsupportedMediaType _ => true
  | _ => false

/-- Test `isinstance(exc, Throttled)`. -/
def isThrottled : Exc → Bool
  | throttled _ => true
  | _ => false

/-- Test `isinstance(exc, APIException)`: true for every DRF exception. -/
def isAPIException : Exc → Bool
  | drfValidationError _ => true
  | parseError _ => true
  | notAuthenticated _ => true
  | authenticationFailed _ => true
  | drfPermissionDenied _ => true
  | notFound _ => true
  | methodNotAllowed _ => true
  | notAcceptable _ => true
  | unsupportedMediaType _ => true
  | throttled _ => true
  | apiException _ _ _ => true
  | _ => false

/-- Test `isinstance(exc, Http404)`. -/
def isHttp404 : Exc → Bool
  | http404 _ => true
  | _ => false

/-- Test `isinstance(exc, ObjectDoesNotExist)`. -/
def isObjectDoesNotExist : Exc → Bool
  | objectDoesNotExist _ => true
  | _ => false

/-- Test `isinstance(exc, MultipleObjectsReturned)`. -/
def isMultipleObjectsReturned : Exc → Bool
  | multipleObjectsReturned _ => true
  | _ => false

/-- Test `isinstance(exc, PermissionDenied)` (the Django core class). -/
def isDjangoPermissionDenied : Exc → Bool
  | djangoPermissionDenied _ => true
  | _ => false

/-- Test `isinstance(exc, DjangoValidationError)`. -/
def isDjangoValidationError : Exc → Bool
  | djangoValidationError _ _ => true
  | _ => false

/-- Test `isinstance(exc, SuspiciousOperation)`: `DisallowedHost` is a
subclass of `SuspiciousOperation`. -/
def isSuspiciousOperation : Exc → Bool
  | suspiciousOperation _ => true
  | disallowedHost _ => true
  | _ => false

/-- Test `isinstance(exc, DisallowedHost)`. -/
def isDisallowedHost : Exc → Bool
  | disallowedHost _ => true
  | _ => false

/-- Test `isinstance(exc, FieldDoesNotExist)`. -/
def isFieldDoesNotExist : Exc → Bool
  | fieldDoesNotExist _ => true
  | _ => false

/-- Test `isinstance(exc, ProtectedError)`. -/
def isProtectedError : Exc → Bool
  | protectedError _ _ => true
  | _ => false

/-- Test `isinstance(exc, RestrictedError)`. -/
def isRestrictedError : Exc → Bool
  | restrictedError _ _ => true
  | _ => false

/-- Test `isinstance(exc, IntegrityError)`: `ProtectedError` and
`RestrictedError` are subclasses of `IntegrityError`. -/
def isIntegrityError : Exc → Bool
  | integrityError _ => true
  | protectedError _ _ => true
  | restrictedError _ _ => true
  | _ => false

/-- Test `isinstance(exc, DataError)`. -/
def isDataError : Exc → Bool
  | dataError _ => true
  | _ => false

/-- Test `isinstance(exc, OperationalError)`. -/
def isOperationalError : Exc → Bool
  | operationalError _ => true
  | _ => false

/-- Test `isinstance(exc, ProgrammingError)`. -/
def isProgrammingError : Exc → Bool
  | programmingError _ => true
  | _ => false

/-- Test `isinstance(exc, DatabaseError)`: every database exception of the
chain is a subclass of `DatabaseError`. -/
def isDatabaseError : Exc → Bool
  | integrityError _ => true
  | protectedError _ _ => true
  | restrictedError _ _ => true
  | dataError _ => true
  | operationalError _ => true
  | programmingError _ => true
  | databaseError _ => true
  | _ => false

end Exc

/-- Branch of `handle_exception` for `DRFValidationError`. -/
def respValidation (_ : Config) (e : Exc) : Response :=
  _error_response "Invalid input." "validation_error" 400 (some e.detailOf) none

/-- Branch of `handle_exception` for `ParseError`. -/
def respParse (_ : Config) (e : Exc) : Response :=
  _error_response "Malformed request body." "parse_error" 400 (some e.detailOf) none

/-- Branch of `handle_exception` for `NotAuthenticated` and
`AuthenticationFailed`. -/
def respAuth (_ : Config) (e : Exc) : Response :=
  _error_response e.detailStr "authentication_error" e.statusCodeOf none none

/-- Branch of `handle_exception` for `DRFPermissionDenied`. -/
def respDRFPermission (_ : Config) (e : Exc) : Response :=
  _error_response e.detailStr "permission_denied" 403 none none

/-- Branch of `handle_exception` for `NotFound`. -/
def respNotFound (_ : Config) (e : Exc) : Response :=
  _error_response e.detailStr "not_found" 404 none none

/-- Branch of `handle_exception` for `MethodNotAllowed`. -/
def respMethodNotAllowed (_ : Config) (e : Exc) : Response :=
  _error_response e.detailStr "method_not_allowed" 405 none none

/-- Branch of `handle_exception` for `NotAcceptable`. -/
def respNotAcceptable (_ : Config) (e : Exc) : Response :=
  _error_response e.detailStr "not_acceptable" 406 none none

/-- Branch of `handle_exception` for `UnsupportedMediaType`. -/
def respUnsupportedMedia (_ : Config) (e : Exc) : Response :=
  _error_response e.detailStr "unsupported_media_type" 415 none none

/-- Branch of `handle_exception` for `Throttled`: builds `extra` as an empty
dict and adds `retry_after` only when `exc.wait` is not None. -/
def respThrottled (_ : Config) (e : Exc) : Response :=
  let extra : List (String × Val) :=
    match e.waitOf with
    | some w => [("retry_after", Val.nat w)]
    | none => []
  _error_response "Request throttled. Try again later." "throttled" 429 none (some extra)

/-- Branch of `handle_exception` for any other `APIException`. -/
def respAPIException (_ : Config) (e : Exc) : Response :=
  _error_response e.detailStr e.defaultCodeOf e.statusCodeOf none none

/-- Branch of `handle_exception` for `Http404`. -/
def respHttp404 (_ : Config) (_ : Exc) : Response :=
  _error_response "The requested resource was not found." "not_found" 404 none none

/-- Branch of `handle_exception` for `ObjectDoesNotExist`. -/
def respObjectDoesNotExist (_ : Config) (_ : Exc) : Response :=
  _error_response "The requested object does not exist." "not_found" 404 none none

/-- Branch of `handle_exception` for `MultipleObjectsReturned`. -/
def respMultipleObjects (_ : Config) (_ : Exc) : Response :=
  _error_response "Multiple objects found where only one was expected."
    "multiple_objects" 500 none none

/-- Branch of `handle_exception` for Django `PermissionDenied`. -/
def respDjangoPermission (_ : Config) (_ : Exc) : Response :=
  _error_response "You do not have permission to perform this action."
    "permission_denied" 403 none none

/-- Branch of `handle_exception` for Django `ValidationError`: uses
`exc.message_dict` when the exception has one, else wraps `exc.messages`
under `non_field_errors`. -/
def respDjangoValidation (_ : Config) (e : Exc) : Response :=
  let errors : Val :=
    match e.messageDictOf with
    | some d => sdictVal d
    | none => Val.obj [("non_field_errors", strListVal e.messagesOf)]
  _error_response "Invalid input." "validation_error" 400 (some errors) none

/-- Branch of `handle_exception` for `SuspiciousOperation`/`DisallowedHost`. -/
def respSuspicious (_ : Config) (_ : Exc) : Response :=
  _error_response "Bad request." "bad_request" 400 none none

/-- Branch of `handle_exception` for `FieldDoesNotExist`. -/
def respFieldDoesNotExist (_ : Config) (_ : Exc) : Response :=
  _error_response "A referenced field does not exist." "field_does_not_exist"
    400 none none

/-- Branch of `handle_exception` for `ProtectedError`/`RestrictedError`:
reads `exc.protected_objects` when present (else the empty list) and caps
the dependents list at 10 entries via `dependents[:10]`. -/
def respProtected (_ : Config) (e : Exc) : Response :=
  let dependents : List String :=
    match e.protectedObjectsOf with
    | some objs => objs
    | none => []
  _error_response "Cannot delete this object because it is referenced by other records."
    "protected_object" 409
    (some (Val.obj [("dependents", Val.arr ((dependents.take 10).map Val.str))])) none

/-- Branch of `handle_exception` for `IntegrityError`: generic message when
`SAFE_DB_ERRORS` is set, else `str(exc)`. -/
def respIntegrity (cfg : Config) (e : Exc) : Response :=
  let msg := if cfg.SAFE_DB_ERRORS then "A database integrity constraint was violated."
    else e.excStr
  _error_response msg "integrity_error" 409 none none

/-- Branch of `handle_exception` for `DataError`: generic message when
`SAFE_DB_ERRORS` is set, else `str(exc)`. -/
def respData (cfg : Config) (e : Exc) : Response :=
  let msg := if cfg.SAFE_DB_ERRORS then "The provided data is invalid for the database schema."
    else e.excStr
  _error_response msg "data_error" 400 none none

/-- Branch of `handle_exception` for `OperationalError`. -/
def respOperational (_ : Config) (_ : Exc) : Response :=
  _error_response "A database operational error occurred. Please try again later."
    "db_operational_error" 503 none none

/-- Branch of `handle_exception` for `ProgrammingError`/`DatabaseError`. -/
def respDatabase (_ : Config) (_ : Exc) : Response :=
  _error_response "An unexpected database error occurred." "db_error" 500 none none

/-- Catch-all branch of `handle_exception`. -/
def respFallback (_ : Config) (_ : Exc) : Response :=
  _error_response "An unexpected internal error occurred." "internal_server_error"
    500 none none

open Exc in
/-- The method `BaseViewSet.handle_exception`: the ordered `isinstance`
chain, first match wins, unconditional catch-all at the end. -/
def handle_exception (cfg : Config) (exc : Exc) : Response :=
  if isDRFValidationError exc then respValidation cfg exc
  else if isParseError exc then respParse cfg exc
  else if isNotAuthenticated exc || isAuthenticationFailed exc then respAuth cfg exc
  else if isDRFPermissionDenied exc then respDRFPermission cfg exc
  else if isNotFound exc then respNotFound cfg exc
  else if isMethodNotAllowed exc then respMethodNotAllowed cfg exc
  else if isNotAcceptable exc then respNotAcceptable cfg exc
  else if isUnsupportedMediaType exc then respUnsupportedMedia cfg exc
  else if isThrottled exc then respThrottled cfg exc
  else if isAPIException exc then respAPIException cfg exc
  else if isHttp404 exc then respHttp404 cfg exc
  else if isObjectDoesNotExist exc then respObjectDoesNotExist cfg exc
  else if isMultipleObjectsReturned exc then respMultipleObjects cfg exc
  else if isDjangoPermissionDenied exc then respDjangoPermission cfg exc
  else if isDjangoValidationError exc then respDjangoValidation cfg exc
  else if isSuspiciousOperation exc || isDisallowedHost exc then respSuspicious cfg exc
  else if isFieldDoesNotExist exc then respFieldDoesNotExist cfg exc
  else if isProtectedError exc || isRestrictedError exc then respProtected cfg exc
  else if isIntegrityError exc then respIntegrity cfg exc
  else if isDataError exc then respData cfg exc
  else if isOperationalError exc then respOperational cfg exc
  else if isProgrammingError exc || isDatabaseError exc then respDatabase cfg exc
  else respFallback cfg exc

/-- One rule of the classification chain: a guard (the `isinstance` test)
and the response builder of that branch. -/
structure Rule where
  guard : Exc → Bool
  build : Config → Exc → Response

open Exc in
/-- The named rules of the chain, in source order, without the catch-all. -/
def namedRules : List Rule :=
  [⟨isDRFValidationError, respValidation⟩,
   ⟨isParseError, respParse⟩,
   ⟨fun e => isNotAuthenticated e || isAuthenticationFailed e, respAuth⟩,
   ⟨isDRFPermissionDenied, respDRFPermission⟩,
   ⟨isNotFound, respNotFound⟩,
   ⟨isMethodNotAllowed, respMethodNotAllowed⟩,
   ⟨isNotAcceptable, respNotAcceptable⟩,
   ⟨isUnsupportedMediaType, respUnsupportedMedia⟩,
   ⟨isThrottled, respThrottled⟩,
   ⟨isAPIException, respAPIException⟩,
   ⟨isHttp404, respHttp404⟩,
   ⟨isObjectDoesNotExist, respObjectDoesNotExist⟩,
   ⟨isMultipleObjectsReturned, respMultipleObjects⟩,
   ⟨isDjangoPermissionDenied, respDjangoPermission⟩,
   ⟨isDjangoValidationError, respDjangoValidation⟩,
   ⟨fun e => isSuspiciousOperation e || isDisallowedHost e, respSuspicious⟩,
   ⟨isFieldDoesNotExist, respFieldDoesNotExist⟩,
   ⟨fun e => isProtectedError e || isRestrictedError e, respProtected⟩,
   ⟨isIntegrityError, respIntegrity⟩,
   ⟨isDataError, respData⟩,
   ⟨isOperationalError, respOperational⟩,
   ⟨fun e => isProgrammingError e || isDatabaseError e, respDatabase⟩]

/-- The full rule chain: the named rules followed by the unconditional
catch-all. -/
def ruleList : List Rule :=
  namedRules ++ [⟨fun _ => true, respFallback⟩]

/-- First-match evaluation of a rule chain; `none` when no rule matches. -/
def firstMatch (cfg : Config) : List Rule → Exc → Option Response
  | [], _ => none
  | r :: rs, e => if r.guard e then some (r.build cfg e) else firstMatch cfg rs e

/-- An exception is recognized when some named rule guard matches it. -/
def isRecognized (e : Exc) : Bool :=
  namedRules.any fun r => r.guard e

/-- The method `BaseViewSet.success_response(data, message, status_code)`. -/
def success_response (data : Val) (message : String) (status_code : Nat) : Response :=
  { data := Val.obj [("message", Val.str message), ("data", data)],
    status_code := status_code }

/-- Top-level fields of a response payload. -/
def topFieldsOf (r : Response) : List (String × Val) :=
  match r.data with
  | Val.obj l => l
  | _ => []

/-- The inner object of the unified error payload shape. -/
def innerOf (r : Response) : List (String × Val) :=
  match r.data with
  | Val.obj [(_, Val.obj inner)] => inner
  | _ => []

/-- The `details` entry of the inner error object. -/
def detailsOf (r : Response) : Option Val :=
  lookupKey "details" (innerOf r)

/-- The method `BaseViewSet.get_object`: wraps the parent lookup, turning
`Http404` into `NotFound("Object not found.")` and `ObjectDoesNotExist`
into `NotFound(str(exc))`; every other outcome passes through. -/
def get_object {I : Type} (super_get : Except Exc I) : Except Exc I :=
  match super_get with
  | .ok x => .ok x
  | .error (Exc.http404 _) => .error (Exc.notFound "Object not found.")
  | .error (Exc.objectDoesNotExist m) => .error (Exc.notFound m)
  | .error ex => .error ex

/-- The method `BaseViewSet.retrieve`: safe lookup, before hook,
serialization, after hook, `Response(serializer.data)` (status 200). -/
def retrieve {I : Type} (super_get : Except Exc I)
    (before_hook : I → Except Exc Unit) (serialize : I → Val)
    (after_hook : I → Except Exc Unit) : Except Exc Response :=
  match get_object super_get with
  | .error ex => .error ex
  | .ok inst =>
    match before_hook inst with
    | .error ex => .error ex
    | .ok _ =>
      let serData := serialize inst
      match after_hook inst with
      | .error ex => .error ex
      | .ok _ => .ok { data := serData, status_code := 200 }

/-- Top-level dispatch boundary: a raised exception is classified by
`handle_exception`, a normal result is returned unchanged. -/
def dispatch (cfg : Config) (action : Except Exc Response) : Response :=
  match action with
  | .ok r => r
  | .error ex => handle_exception cfg ex

/-- Named steps of an operation pipeline, recorded in execution order. -/
inductive Step
  | before
  | perform
  | after
deriving DecidableEq, BEq

/-- The method `BaseViewSet.perform_create`: before hook, then
`serializer.save(**self.get_create_kwargs(serializer))` (the kwargs are
computed first, then the save runs), then the after hook. The returned
trace records which named steps started executing. -/
def perform_create {E K I : Type} (before_hook : Except E Unit)
    (create_kwargs : Except E K) (save : K → Except E I)
    (after_hook : I → Except E Unit) : List Step × Except E I :=
  match before_hook with
  | .error ex => ([Step.before], .error ex)
  | .ok _ =>
    match create_kwargs with
    | .error ex => ([Step.before], .error ex)
    | .ok kw =>
      match save kw with
      | .error ex => ([Step.before, Step.perform], .error ex)
      | .ok inst =>
        match after_hook inst with
        | .error ex => ([Step.before, Step.perform, Step.after], .error ex)
        | .ok _ => ([Step.before, Step.perform, Step.after], .ok inst)

/-- The method `BaseViewSet.perform_update`, same shape as `perform_create`
with `get_update_kwargs`. -/
def perform_update {E K I : Type} (before_hook : Except E Unit)
    (update_kwargs : Except E K) (save : K → Except E I)
    (after_hook : I → Except E Unit) : List Step × Except E I :=
  match before_hook with
  | .error ex => ([Step.before], .error ex)
  | .ok _ =>
    match update_kwargs with
    | .error ex => ([Step.before], .error ex)
    | .ok kw =>
      match save kw with
      | .error ex => ([Step.before, Step.perform], .error ex)
      | .ok inst =>
        match after_hook inst with
        | .error ex => ([Step.before, Step.perform, Step.after], .error ex)
        | .ok _ => ([Step.before, Step.perform, Step.after], .ok inst)

/-- The method `BaseViewSet.perform_destroy`: before hook,
`instance.delete()`, after hook. -/
def perform_destroy {E : Type} (before_hook : Except E Unit)
    (delete : Except E Unit) (after_hook : Except E Unit) :
    List Step × Except E Unit :=
  match before_hook with
  | .error ex => ([Step.before], .error ex)
  | .ok _ =>
    match delete with
    | .error ex => ([Step.before, Step.perform], .error ex)
    | .ok _ =>
      match after_hook with
      | .error ex => ([Step.before, Step.perform, Step.after], .error ex)
      | .ok _ => ([Step.before, Step.perform, Step.after], .ok ())

/-- The method `BaseViewSet.filter_queryset`: before-list hook, the parent
(DRF) filtering, then the after-list hook, each rebinding `queryset`. -/
def filter_queryset {Q : Type} (before_hook parent_filter after_hook : Q → Q)
    (queryset : Q) : Q :=
  let queryset := before_hook queryset
  let queryset := parent_filter queryset
  let queryset := after_hook queryset
  queryset

/-- Admissible traces of a before/perform/after pipeline: the before hook
first, then optionally perform, then optionally after. -/
def traceShapeOk (tr : List Step) : Prop :=
  tr = [Step.before] ∨ tr = [Step.before, Step.perform]
    ∨ tr = [Step.before, Step.perform, Step.after]

/-- Failures for which the handler attaches structured errors to the
response, i.e. the branches that pass a non-None `errors` argument to
`_error_response`. -/
def carriesStructuredDetails : Exc → Bool
  | Exc.drfValidationError _ => true
  | Exc.parseError _ => true
  | Exc.djangoValidationError _ _ => true
  | Exc.protectedError _ _ => true
  | Exc.restrictedError _ _ => true
  | _ => false

/-- C1: the classifier `handle_exception` is deterministic and total. For
every exception value, including unrecognized or wrapped faults (the
`apiException` and `other` constructors) and either configuration, the
ordered rule chain matches exactly one rule (the unconditional catch-all
guarantees a match, so evaluation never falls off the chain and never
raises), and the resulting response is exactly the one `handle_exception`
computes; being a function of the exception's kind and fields, two runs on
equal inputs return the same response. -/
theorem classifier_total_deterministic (cfg : Config) (e : Exc) :
    ∃! r : Response, firstMatch cfg ruleList e = some r ∧ handle_exception cfg e = r := by
  refine ⟨handle_exception cfg e, ⟨?_, rfl⟩, ?_⟩
  · cases e <;> rfl
  · intro y hy
    exact hy.2.symm

/-- C2: for every exception matched by no named rule of the chain, the
handler returns the fixed 500 `internal_server_error` response, whose
message is the constant generic text independent of the underlying fault,
for every configuration and hence both values of `SAFE_DB_ERRORS`. -/
theorem unknown_fallback_fixed_response (cfg : Config) (e : Exc)
    (h : isRecognized e = false) :
    handle_exception cfg e =
      _error_response "An unexpected internal error occurred."
        "internal_server_error" 500 none none := by
  cases e <;> first | rfl | exact Bool.noConfusion h

/-- Witness for C2: a raw unrecognized exception is unrecognized and maps
to the fixed 500 response under both values of `SAFE_DB_ERRORS`. -/
theorem unknown_fallback_fixed_response_witness :
    isRecognized (Exc.other "RuntimeError" "boom") = false
    ∧ handle_exception ⟨false, false⟩ (Exc.other "RuntimeError" "boom") =
        _error_response "An unexpected internal error occurred."
          "internal_server_error" 500 none none
    ∧ handle_exception ⟨false, true⟩ (Exc.other "RuntimeError" "boom") =
        _error_response "An unexpected internal error occurred."
          "internal_server_error" 500 none none :=
  ⟨rfl, unknown_fallback_fixed_response ⟨false, false⟩ _ rfl,
    unknown_fallback_fixed_response ⟨false, true⟩ _ rfl⟩

/-- Trace specification of `perform_create`: the before hook runs exactly
once, steps occur in before/perform/after order, and the after hook starts
exactly when the save completed without raising. -/
theorem perform_create_trace {E K I : Type} (b : Except E Unit) (k : Except E K)
    (s : K → Except E I) (a : I → Except E Unit) :
    ((perform_create b k s a).1.count Step.before = 1)
    ∧ traceShapeOk (perform_create b k s a).1
    ∧ (Step.after ∈ (perform_create b k s a).1 ↔
        b = Except.ok () ∧ ∃ kw inst, k = Except.ok kw ∧ s kw = Except.ok inst) := by
  rcases b with ex | u
  · exact ⟨rfl, Or.inl rfl, by simp [perform_create]⟩
  · rcases k with ex | kw
    · exact ⟨rfl, Or.inl rfl, by simp [perform_create]⟩
    · rcases hs : s kw with ex | inst
      · refine ⟨?_, ?_, ?_⟩
        · simp [perform_create, hs]
          decide
        · simp [perform_create, hs, traceShapeOk]
        · simp [perform_create, hs]
      · rcases ha : a inst with ex | u2
        · refine ⟨?_, ?_, ?_⟩
          · simp [perform_create, hs, ha]
            decide
          · simp [perform_create, hs, ha, traceShapeOk]
          · simp [perform_create, hs, ha]
        · refine ⟨?_, ?_, ?_⟩
          · simp [perform_create, hs, ha]
            decide
          · simp [perform_create, hs, ha, traceShapeOk]
          · simp [perform_create, hs, ha]

/-- Trace specification of `perform_update`, same shape as create. -/
theorem perform_update_trace {E K I : Type} (b : Except E Unit) (k : Except E K)
    (s : K → Except E I) (a : I → Except E Unit) :
    ((perform_update b k s a).1.count Step.before = 1)
    ∧ traceShapeOk (perform_update b k s a).1
    ∧ (Step.after ∈ (perform_update b k s a).1 ↔
        b = Except.ok () ∧ ∃ kw inst, k = Except.ok kw ∧ s kw = Except.ok inst) := by
  rcases b with ex | u
  · exact ⟨rfl, Or.inl rfl, by simp [perform_update]⟩
  · rcases k with ex | kw
    · exact ⟨rfl, Or.inl rfl, by simp [perform_update]⟩
    · rcases hs : s kw with ex | inst
      · refine ⟨?_, ?_, ?_⟩
        · simp [perform_update, hs]
          decide
        · simp [perform_update, hs, traceShapeOk]
        · simp [perform_update, hs]
      · rcases ha : a inst with ex | u2
        · refine ⟨?_, ?_, ?_⟩
          · simp [perform_update, hs, ha]
            decide
          · simp [perform_update, hs, ha, traceShapeOk]
          · simp [perform_update, hs, ha]
        · refine ⟨?_, ?_, ?_⟩
          · simp [perform_update, hs, ha]
            decide
          · simp [perform_update, hs, ha, traceShapeOk]
          · simp [perform_update, hs, ha]

/-- Trace specification of `perform_destroy`. -/
theorem perform_destroy_trace {E : Type} (b d a : Except E Unit) :
    ((perform_destroy b d a).1.count Step.before = 1)
    ∧ traceShapeOk (perform_destroy b d a).1
    ∧ (Step.after ∈ (perform_destroy b d a).1 ↔
        b = Except.ok () ∧ d = Except.ok ()) := by
  rcases b with ex | u
  · exact ⟨rfl, Or.inl rfl, by simp [perform_destroy]⟩
  · rcases d with ex | u1
    · exact ⟨rfl, Or.inr (Or.inl rfl), by simp [perform_destroy]⟩
    · rcases a with ex | u2
      · exact ⟨rfl, Or.inr (Or.inr rfl), by simp [perform_destroy]⟩
      · exact ⟨rfl, Or.inr (Or.inr rfl), by simp [perform_destroy]⟩

/-- C3: in each of the create, update and destroy pipelines, the before
hook executes exactly once and strictly before the perform step (every
trace is a prefix of before/perform/after in that order), and the after
hook executes if and only if the perform step (including the kwargs
computation that feeds the save) completed without raising; when the
before hook or the perform step raises, the pipeline exits without the
after hook. -/
theorem pipeline_hook_ordering {E K KU I IU : Type}
    (cb : Except E Unit) (ck : Except E K) (cs : K → Except E I)
    (ca : I → Except E Unit)
    (ub : Except E Unit) (uk : Except E KU) (us : KU → Except E IU)
    (ua : IU → Except E Unit)
    (db dd da : Except E Unit) :
    (((perform_create cb ck cs ca).1.count Step.before = 1)
      ∧ traceShapeOk (perform_create cb ck cs ca).1
      ∧ (Step.after ∈ (perform_create cb ck cs ca).1 ↔
          cb = Except.ok () ∧ ∃ kw inst, ck = Except.ok kw ∧ cs kw = Except.ok inst))
    ∧ (((perform_update ub uk us ua).1.count Step.before = 1)
      ∧ traceShapeOk (perform_update ub uk us ua).1
      ∧ (Step.after ∈ (perform_update ub uk us ua).1 ↔
          ub = Except.ok () ∧ ∃ kw inst, uk = Except.ok kw ∧ us kw = Except.ok inst))
    ∧ (((perform_destroy db dd da).1.count Step.before = 1)
      ∧ traceShapeOk (perform_destroy db dd da).1
      ∧ (Step.after ∈ (perform_destroy db dd da).1 ↔
          db = Except.ok () ∧ dd = Except.ok ())) :=
  ⟨perform_create_trace cb ck cs ca, perform_update_trace ub uk us ua,
    perform_destroy_trace db dd da⟩

/-- C4: when the parent lookup raises `Http404` or `ObjectDoesNotExist`,
the safe wrapper `get_object` re-raises a `NotFound` failure at that exact
point, the classifier maps any `NotFound` failure to a 404 response whose
message is its detail, and dispatching the retrieve action over a missing
object yields the 404 response with message "Object not found." for the
`Http404` signal (and the carried message for `ObjectDoesNotExist`). -/
theorem safe_lookup_not_found {I : Type} (cfg : Config) (m d : String)
    (bh : I → Except Exc Unit) (ser : I → Val) (ah : I → Except Exc Unit) :
    get_object (Except.error (Exc.http404 m) : Except Exc I)
        = Except.error (Exc.notFound "Object not found.")
    ∧ get_object (Except.error (Exc.objectDoesNotExist m) : Except Exc I)
        = Except.error (Exc.notFound m)
    ∧ handle_exception cfg (Exc.notFound d) = _error_response d "not_found" 404 none none
    ∧ (handle_exception cfg (Exc.notFound d)).status_code = 404
    ∧ dispatch cfg (retrieve (Except.error (Exc.http404 m) : Except Exc I) bh ser ah)
        = _error_response "Object not found." "not_found" 404 none none
    ∧ dispatch cfg (retrieve (Except.error (Exc.objectDoesNotExist m) : Except Exc I) bh ser ah)
        = _error_response m "not_found" 404 none none :=
  ⟨rfl, rfl, rfl, rfl, rfl, rfl⟩

/-- C5 counterexample: a `ProtectedError` carrying 11 dependents. The inner
error object holds exactly the keys `code`, `message` and `details` — no
`dependents` key is merged into it from `extra` (the branch passes the
dependents through the `errors` argument, so they live under `details`,
not under `extra` as the claim states), truncated to the first 10. -/
theorem protected_dependents_under_extra_refuted :
    innerOf (handle_exception ⟨false, true⟩ (Exc.protectedError "blocked"
        ["o1", "o2", "o3", "o4", "o5", "o6", "o7", "o8", "o9", "o10", "o11"]))
      = [("code", Val.str "protected_object"),
         ("message", Val.str "Cannot delete this object because it is referenced by other records."),
         ("details", Val.obj [("dependents", Val.arr
            [Val.str "o1", Val.str "o2", Val.str "o3", Val.str "o4", Val.str "o5",
             Val.str "o6", Val.str "o7", Val.str "o8", Val.str "o9", Val.str "o10"])])]
    ∧ lookupKey "dependents" (innerOf (handle_exception ⟨false, true⟩
        (Exc.protectedError "blocked"
          ["o1", "o2", "o3", "o4", "o5", "o6", "o7", "o8", "o9", "o10", "o11"]))) = none :=
  ⟨rfl, rfl⟩

/-- C5 as amended: every `ProtectedError`/`RestrictedError` failure yields
HTTP 409 with code `protected_object`, and the response carries under
`details` a dependents list truncated to at most 10 entries even when the
failure carries more (for `RestrictedError`, which has no
`protected_objects` attribute, the list is empty). -/
theorem protected_dependents_capped (cfg : Config) (m : String)
    (deps rdeps : List String) :
    handle_exception cfg (Exc.protectedError m deps)
      = _error_response "Cannot delete this object because it is referenced by other records."
          "protected_object" 409
          (some (Val.obj [("dependents", Val.arr ((deps.take 10).map Val.str))])) none
    ∧ (deps.take 10).length ≤ 10
    ∧ handle_exception cfg (Exc.restrictedError m rdeps)
      = _error_response "Cannot delete this object because it is referenced by other records."
          "protected_object" 409
          (some (Val.obj [("dependents", Val.arr ([] : List Val))])) none :=
  ⟨rfl, by rw [List.length_take]; exact min_le_left _ _, rfl⟩

/-- C6: for `IntegrityError` (409/`integrity_error`) and `DataError`
(400/`data_error`) the client-facing message is the fixed generic text
exactly when `SAFE_DB_ERRORS` is set and otherwise is the raw exception
text; for `OperationalError` (503/`db_operational_error`) and
`ProgrammingError`/`DatabaseError` (500/`db_error`) the message is fixed
generic text regardless of the flag. -/
theorem db_error_message_policy (cfg : Config) (m : String) :
    handle_exception cfg (Exc.integrityError m)
      = _error_response
          (if cfg.SAFE_DB_ERRORS then "A database integrity constraint was violated." else m)
          "integrity_error" 409 none none
    ∧ handle_exception cfg (Exc.dataError m)
      = _error_response
          (if cfg.SAFE_DB_ERRORS then "The provided data is invalid for the database schema." else m)
          "data_error" 400 none none
    ∧ handle_exception cfg (Exc.operationalError m)
      = _error_response "A database operational error occurred. Please try again later."
          "db_operational_error" 503 none none
    ∧ handle_exception cfg (Exc.programmingError m)
      = _error_response "An unexpected database error occurred." "db_error" 500 none none
    ∧ handle_exception cfg (Exc.databaseError m)
      = _error_response "An unexpected database error occurred." "db_error" 500 none none :=
  ⟨rfl, rfl, rfl, rfl, rfl⟩

/-- C7: the list-filtering step equals the composition of the after hook
with the external filter with the before hook: the before hook runs on the
queryset first, the parent filter on its result, the after hook on the
filter's result — the hooks wrap the external filter. -/
theorem filter_queryset_composition {Q : Type} (b p a : Q → Q) (qs : Q) :
    filter_queryset b p a qs = a (p (b qs)) :=
  rfl

/-- C8: for every data payload and message, the success builder returns the
envelope with exactly the `message` and `data` fields, and the `data` field
of the built response equals the original payload unchanged. -/
theorem success_response_roundtrip (d : Val) (m : String) (s : Nat) :
    success_response d m s
      = { data := Val.obj [("message", Val.str m), ("data", d)], status_code := s }
    ∧ lookupKey "data" (topFieldsOf (success_response d m s)) = some d
    ∧ (success_response d m s).status_code = s :=
  ⟨rfl, rfl, rfl⟩

/-- C9: a Django-core (non-DRF) validation failure is classified as 400
with code `validation_error`; its details are the failure's field-to-
messages mapping when it has one, otherwise the mapping wrapping its
message list under `non_field_errors` — in both cases the details are a
mapping. -/
theorem django_validation_normalization (cfg : Config)
    (md : List (String × List String)) (msgs : List String) :
    handle_exception cfg (Exc.djangoValidationError (some md) msgs)
      = _error_response "Invalid input." "validation_error" 400 (some (sdictVal md)) none
    ∧ handle_exception cfg (Exc.djangoValidationError none msgs)
      = _error_response "Invalid input." "validation_error" 400
          (some (Val.obj [("non_field_errors", strListVal msgs)])) none
    ∧ (∃ kvs, detailsOf (handle_exception cfg (Exc.djangoValidationError (some md) msgs))
        = some (Val.obj kvs))
    ∧ (∃ kvs, detailsOf (handle_exception cfg (Exc.djangoValidationError none msgs))
        = some (Val.obj kvs)) :=
  ⟨rfl, rfl, ⟨_, rfl⟩, ⟨_, rfl⟩⟩

/-- C10: every classified response has the shape of a single `error` object
whose inner object always contains the keys `code`, `message` and
`details`; an empty `extra` mapping is not merged (it produces the same
payload as no `extra`); when the failure carries no structured errors the
`details` value is null; and a throttled failure without a retry delay has
no `retry_after` key at all, while one with a delay carries it. -/
theorem error_envelope_shape (cfg : Config) (e : Exc) (m c : String) (s : Nat)
    (errs : Option Val) (w : Nat) :
    (∃ inner, (handle_exception cfg e).data = Val.obj [("error", Val.obj inner)]
      ∧ (lookupKey "code" inner).isSome ∧ (lookupKey "message" inner).isSome
      ∧ (lookupKey "details" inner).isSome)
    ∧ _error_response m c s errs (some []) = _error_response m c s errs none
    ∧ (carriesStructuredDetails e = false →
        detailsOf (handle_exception cfg e) = some Val.null)
    ∧ lookupKey "retry_after" (innerOf (handle_exception cfg (Exc.throttled none))) = none
    ∧ lookupKey "retry_after" (innerOf (handle_exception cfg (Exc.throttled (some w))))
        = some (Val.nat w) := by
  refine ⟨?_, rfl, ?_, rfl, rfl⟩
  · cases e <;> first
      | exact ⟨_, rfl, rfl, rfl, rfl⟩
      | (rename_i v; cases v <;> exact ⟨_, rfl, rfl, rfl, rfl⟩)
  · intro h
    cases e <;> first
      | rfl
      | (rename_i v; cases v <;> rfl)
      | exact Bool.noConfusion h

/-- Witness for C10: a failure carrying no structured errors yields null
details, instantiated at a concrete missing-resource failure. -/
theorem error_envelope_shape_witness :
    carriesStructuredDetails (Exc.http404 "gone") = false
    ∧ detailsOf (handle_exception ⟨false, true⟩ (Exc.http404 "gone")) = some Val.null :=
  ⟨rfl, (error_envelope_shape ⟨false, true⟩ (Exc.http404 "gone") "m" "c" 400 none 0).2.2.1 rfl⟩
